import Mathlib

/-!
Shallow embedding of the corgi distributed redis lock (src/redislock.go)
and verification of its specification claims.

The embedding models:
  - the redis store as an association list from lock key to holder-marker
    value (a Lock Record exists for a key iff the key occurs in the list);
  - the three store operations used by the code, `SETNX` (conditional
    create), `DEL` (delete, returning the removed count) and `EXPIRE`
    (refresh, returning whether the key exists);
  - `context.Context` as an optional deadline;
  - the driver `redisDriver` by whether its `client` and `clusterClient`
    fields are non-nil;
  - the renewal-registry global `states.listeners` as an association list
    from key to a channel identifier;
  - transport faults (`err != nil` results of a store call) as an oracle
    boolean; a faulted call leaves the modelled store unchanged;
  - the renewal goroutine as a function over the finite trace of events it
    observes (ticker ticks, each carrying the result of the `Expire` call
    made on that tick, and the cancellation signal).

`TryLock` and `Unlock` additionally return the list of store calls they
issue, each carrying the context it was issued under, so that deadline
claims and no-contact claims can be stated.
-/

namespace Corgi

/-- Nanoseconds in one second, modelling Go's `time.Second`. -/
def timeSecond : Nat := 1000000000

/-- Source: `pingTimeout = time.Second * 3`. -/
def pingTimeout : Nat := timeSecond * 3

/-- Source: `lockTTL = time.Second * 10`. -/
def lockTTL : Nat := timeSecond * 10

/-- Source: `redisExecuteTimeout = time.Second * 3`. -/
def redisExecuteTimeout : Nat := timeSecond * 3

/-- Source: `renewalCheckInterval = time.Second * 1`. -/
def renewalCheckInterval : Nat := timeSecond * 1

/-- A Go `context.Context`, abstracted to its deadline. -/
structure Context where
  deadline : Option Nat
deriving Repr, DecidableEq

/-- Go's `context.Background()`: a context with no deadline. -/
def contextBackground : Context := ⟨none⟩

/-- The deadline wrapper both `TryLock` and `Unlock` apply before their
store call: if the caller's context has no deadline, derive one bounded by
`redisExecuteTimeout`; otherwise keep the caller's context. -/
def withExecuteTimeout (c : Context) : Context :=
  if c.deadline.isSome then c else ⟨some redisExecuteTimeout⟩

/-- The redis store contents: key to holder-marker value. A Lock Record
for `k` exists iff `k` occurs as a key. -/
abbrev Store := List (String × String)

/-- Whether a record for `k` exists in the store. -/
def containsKey (s : Store) (k : String) : Bool :=
  s.any (fun p => p.1 == k)

/-- Redis `SETNX key v`: create the record only if the key is absent.
Returns whether this call created the record, and the new store. -/
def setNX (s : Store) (k v : String) : Bool × Store :=
  if containsKey s k then (false, s) else (true, (k, v) :: s)

/-- Redis `DEL key`: remove the record if present. Returns the number of
keys removed (0 or 1) and the new store. -/
def del (s : Store) (k : String) : Nat × Store :=
  (if containsKey s k then 1 else 0, s.filter (fun p => p.1 != k))

/-- Redis `EXPIRE key ttl`: reset the record's ttl; returns whether the
key exists (the refresh succeeds iff the record is still there). -/
def expire (s : Store) (k : String) : Bool :=
  containsKey s k

/-- The `redisDriver` struct, abstracted to whether each client field is
non-nil. -/
structure RedisDriver where
  client : Bool
  clusterClient : Bool
deriving Repr, DecidableEq

/-- The in-process system state: the store contents plus the renewal
registry `states.listeners` (key to cancellation-channel identifier). -/
structure SysState where
  store : Store
  listeners : List (String × Nat)
deriving Repr, DecidableEq

/-- A store call issued by the lifecycle code, with the context it was
issued under. -/
inductive StoreCall where
  | setNXCall (c : Context) (key val : String) (ttl : Nat)
  | delCall (c : Context) (key : String)
  | expireCall (c : Context) (key : String) (ttl : Nat)
deriving Repr, DecidableEq

/-- The context a store call was issued under. -/
def StoreCall.ctx : StoreCall → Context
  | .setNXCall c _ _ _ => c
  | .delCall c _ => c
  | .expireCall c _ _ => c

/-- Go map assignment `states.listeners[key] = ch`: bind `key` to `ch`,
replacing any previous binding. -/
def setListener (l : List (String × Nat)) (k : String) (ch : Nat) :
    List (String × Nat) :=
  (k, ch) :: l.filter (fun p => p.1 != k)

/-- Source lines 222-228: the holder marker
`fmt.Sprintf("lockedAt:%s@%s(%s)", now, hostname, ip)`. -/
def lockerValue (now hostname ip : String) : String :=
  "lockedAt:" ++ now ++ "@" ++ hostname ++ "(" ++ ip ++ ")"

/-- Result of a `TryLock` call: the returned boolean, the resulting
system state, the store calls issued, and whether a renewal goroutine was
spawned. -/
structure TryLockResult where
  ok : Bool
  state : SysState
  calls : List StoreCall
  spawned : Bool
deriving Repr, DecidableEq

/-- Embedding of `(*redisDriver).TryLock` (source lines 120-183).
`fault` is the transport-fault oracle for the `SetNX` call (true models
`err != nil`; a faulted call leaves the modelled store unchanged).
`val` is the `lockerValue()` string computed at the call, `chanId`
identifies the freshly made cancellation channel. The code runs `SetNX`
through `client` if non-nil and through `clusterClient` if non-nil (the
latter's result overwriting the former's), then checks `err`, then on
`ok` spawns the renewal goroutine and registers its channel. -/
def TryLock (rd : RedisDriver) (ctx : Context) (key : String) (st : SysState)
    (fault : Bool) (val : String) (chanId : Nat) : TryLockResult :=
  if rd.client = false ∧ rd.clusterClient = false then
    ⟨false, st, [], false⟩
  else
    let cctx := withExecuteTimeout ctx
    let ok1 := if rd.client then (setNX st.store key val).1 else false
    let store1 := if rd.client then (setNX st.store key val).2 else st.store
    let calls1 : List StoreCall :=
      if rd.client then [StoreCall.setNXCall cctx key val lockTTL] else []
    let ok2 := if rd.clusterClient then (setNX store1 key val).1 else ok1
    let store2 := if rd.clusterClient then (setNX store1 key val).2 else store1
    let calls2 := calls1 ++
      (if rd.clusterClient then [StoreCall.setNXCall cctx key val lockTTL] else [])
    if fault then
      ⟨false, st, calls2, false⟩
    else if ok2 then
      ⟨true, ⟨store2, setListener st.listeners key chanId⟩, calls2, true⟩
    else
      ⟨false, ⟨store2, st.listeners⟩, calls2, false⟩

/-- Result of an `Unlock` call: the returned boolean, the resulting
system state and the store calls issued. -/
structure UnlockResult where
  ok : Bool
  state : SysState
  calls : List StoreCall
deriving Repr, DecidableEq

/-- Embedding of `(*redisDriver).Unlock` (source lines 185-220).
After the nil-client guard, the code returns `cnt > 0 && err == nil`
directly from whichever client branch runs; the registry-cleanup
goroutine (lines 206-217) sits after both returns and is reachable only
when both clients are nil, which the first guard already excluded. The
final arm of this definition embeds that dead branch faithfully. -/
def Unlock (rd : RedisDriver) (ctx : Context) (key : String) (st : SysState)
    (fault : Bool) : UnlockResult :=
  if rd.client = false ∧ rd.clusterClient = false then
    ⟨false, st, []⟩
  else
    let cctx := withExecuteTimeout ctx
    if rd.client then
      if fault then
        ⟨false, ⟨st.store, st.listeners⟩, [StoreCall.delCall cctx key]⟩
      else
        ⟨decide (0 < (del st.store key).1), ⟨(del st.store key).2, st.listeners⟩,
          [StoreCall.delCall cctx key]⟩
    else if rd.clusterClient then
      if fault then
        ⟨false, ⟨st.store, st.listeners⟩, [StoreCall.delCall cctx key]⟩
      else
        ⟨decide (0 < (del st.store key).1), ⟨(del st.store key).2, st.listeners⟩,
          [StoreCall.delCall cctx key]⟩
    else
      ⟨false, ⟨st.store, st.listeners.filter (fun p => p.1 != key)⟩, []⟩

/-- An event observed by the renewal goroutine: a ticker tick carrying
the result of the `Expire` refresh made on that tick (`refreshOk` is the
boolean result, `refreshErr` models `redisErr != nil`), or the
cancellation signal arriving on `cancelChan`. -/
inductive RenewalEvent where
  | tick (refreshOk : Bool) (refreshErr : Bool)
  | cancel
deriving Repr, DecidableEq

/-- Embedding of the renewal goroutine's loop (source lines 152-175) for
a driver with one configured client, as a function from the trace of
events the `select` observes to the list of `Expire` store calls issued.
On a tick the loop issues `Expire` under `innerCtx = context.Background()`
and continues only if the refresh returned true with no error
(`!redisOK || redisErr != nil` breaks the loop); on the cancellation
signal it exits at once, issuing nothing. -/
def renewalRun (key : String) : List RenewalEvent → List StoreCall
  | [] => []
  | RenewalEvent.cancel :: _ => []
  | RenewalEvent.tick ok err :: rest =>
    StoreCall.expireCall contextBackground key lockTTL ::
      (if ok && !err then renewalRun key rest else [])

/-- Two stores agree on which keys exist (they may differ on the
holder-marker values stored under them). -/
def sameDomain (s1 s2 : Store) : Prop :=
  ∀ k, containsKey s1 k = containsKey s2 k

/-! Helper lemmas about the store operations. -/

/-- After deleting `k`, no record for `k` remains. -/
theorem containsKey_filter_ne (s : Store) (k : String) :
    containsKey (s.filter (fun p => p.1 != k)) k = false := by
  simp only [containsKey]
  rw [List.any_eq_false]
  intro p hp
  rw [List.mem_filter] at hp
  simpa using hp.2

/-- A freshly created record is found by a lookup of its key. -/
theorem containsKey_cons_self (s : Store) (k v : String) :
    containsKey ((k, v) :: s) k = true := by
  simp [containsKey]

/-- Deleting an absent key leaves the store unchanged. -/
theorem filter_ne_of_not_containsKey (s : Store) (k : String)
    (h : containsKey s k = false) : s.filter (fun p => p.1 != k) = s := by
  rw [List.filter_eq_self]
  intro p hp
  have h2 := (List.any_eq_false.mp h) p hp
  simpa using h2

/-- Every store call the renewal loop issues runs under the background
context. -/
theorem renewalRun_ctx (key : String) (evs : List RenewalEvent) :
    ∀ c ∈ renewalRun key evs, StoreCall.ctx c = contextBackground := by
  induction evs with
  | nil => intro c hc; simp [renewalRun] at hc
  | cons e rest ih =>
    cases e with
    | cancel => intro c hc; simp [renewalRun] at hc
    | tick ok err =>
      intro c hc
      simp only [renewalRun, List.mem_cons] at hc
      rcases hc with rfl | hc
      · rfl
      · cases hb : (ok && !err) with
        | true => rw [hb] at hc; simp at hc; exact ih c hc
        | false => rw [hb] at hc; simp at hc

/-! Claim theorems. -/

/-- C1: the claim says every `Unlock` call made while a store is
configured cancels and removes the Renewal Registry entry for the key
after the delete attempt.  The code violates this: with the standalone
client configured, a record for "k" in the store and a registry entry
for "k", `Unlock` deletes the record and returns true, yet the registry
entry is still present afterwards — the cleanup goroutine sits after the
client branches' returns and never runs when a store is configured. -/
theorem C1_unlock_skips_registry_cleanup :
    (Unlock ⟨true, false⟩ contextBackground "k"
        ⟨[("k", "v")], [("k", 7)]⟩ false).ok = true ∧
    (Unlock ⟨true, false⟩ contextBackground "k"
        ⟨[("k", "v")], [("k", 7)]⟩ false).state.listeners = [("k", 7)] := by
  constructor <;> decide

/-- C4: the renewal loop exits immediately on the cancellation signal,
issuing no refresh; and a tick whose refresh returns false or an error is
the last refresh attempt — nothing further is issued, whatever events
would follow. -/
theorem C4_renewal_loop_stops (key : String) (evs : List RenewalEvent)
    (ok err : Bool) (hfail : ok = false ∨ err = true) :
    renewalRun key (RenewalEvent.cancel :: evs) = [] ∧
    renewalRun key (RenewalEvent.tick ok err :: evs) =
      [StoreCall.expireCall contextBackground key lockTTL] := by
  refine ⟨rfl, ?_⟩
  rcases hfail with h | h <;> subst h <;> simp [renewalRun]

/-- Witness for C4 at a concrete trace: a cancel exits with no refresh,
and a failed first tick issues exactly one refresh even though a further
healthy tick event follows. -/
theorem C4_renewal_loop_stops_witness :
    renewalRun "k" (RenewalEvent.cancel :: [RenewalEvent.tick true false]) = [] ∧
    renewalRun "k" (RenewalEvent.tick false false :: [RenewalEvent.tick true false]) =
      [StoreCall.expireCall contextBackground "k" lockTTL] :=
  C4_renewal_loop_stops "k" [RenewalEvent.tick true false] false false (Or.inl rfl)

/-- C6: with no store configured (both client fields nil), `TryLock` and
`Unlock` return false, leave the state unchanged and issue no store
calls at all. -/
theorem C6_no_store_fail_closed (ctx : Context) (key : String) (st : SysState)
    (fault : Bool) (val : String) (chanId : Nat) :
    TryLock ⟨false, false⟩ ctx key st fault val chanId = ⟨false, st, [], false⟩ ∧
    Unlock ⟨false, false⟩ ctx key st fault = ⟨false, st, []⟩ := by
  constructor <;> rfl

/-- C9: the lease TTL is 10 seconds, the renewal tick interval is
1 second, and the tick interval is strictly shorter than the TTL. -/
theorem C9_lease_constants :
    lockTTL = 10 * timeSecond ∧ renewalCheckInterval = 1 * timeSecond ∧
    renewalCheckInterval < lockTTL := by
  refine ⟨?_, ?_, ?_⟩ <;> norm_num [lockTTL, renewalCheckInterval, timeSecond]

/-- C7 counterexample: the claim says every store call of the lifecycle
is bounded by the caller's deadline or the 3-second default; but the
refresh call the renewal loop issues on a tick runs under
`context.Background()`, which carries no deadline at all. -/
theorem C7_refresh_call_unbounded :
    (renewalRun "k" [RenewalEvent.tick true false]).map StoreCall.ctx =
      [contextBackground] ∧ contextBackground.deadline = none := by
  constructor <;> rfl

/-- C2: while a lock record for the key exists in the store, any further
`TryLock` for that key — whichever driver configuration, fault outcome,
marker value or channel it runs with — returns false and leaves the
store contents unchanged (the existing record is not replaced). -/
theorem C2_second_trylock_rejected (rd : RedisDriver) (ctx : Context)
    (key : String) (st : SysState) (fault : Bool) (val : String) (chanId : Nat)
    (h : containsKey st.store key = true) :
    (TryLock rd ctx key st fault val chanId).ok = false ∧
    (TryLock rd ctx key st fault val chanId).state.store = st.store := by
  obtain ⟨c, cc⟩ := rd
  cases c <;> cases cc <;> cases fault <;> simp [TryLock, setNX, h]

/-- Witness for C2: with the standalone client configured and a record
for "k" present, a second `TryLock` on "k" returns false. -/
theorem C2_second_trylock_rejected_witness :
    containsKey [("k", "v")] "k" = true ∧
    (TryLock ⟨true, false⟩ contextBackground "k" ⟨[("k", "v")], []⟩
        false "w" 1).ok = false :=
  ⟨by decide, (C2_second_trylock_rejected ⟨true, false⟩ contextBackground "k"
    ⟨[("k", "v")], []⟩ false "w" 1 (by decide)).1⟩

/-- C10: every `TryLock` call that returns false — no store configured,
key already present, or transport fault — leaves the renewal registry
exactly as it was and spawns no renewal goroutine. -/
theorem C10_failed_trylock_frame (rd : RedisDriver) (ctx : Context)
    (key : String) (st : SysState) (fault : Bool) (val : String) (chanId : Nat)
    (h : (TryLock rd ctx key st fault val chanId).ok = false) :
    (TryLock rd ctx key st fault val chanId).state.listeners = st.listeners ∧
    (TryLock rd ctx key st fault val chanId).spawned = false := by
  obtain ⟨c, cc⟩ := rd
  cases c <;> cases cc <;> cases fault <;>
    cases hk : containsKey st.store key <;>
    simp_all [TryLock, setNX, containsKey_cons_self]

/-- Witness for C10: a faulted `TryLock` returns false and the registry
entry for another key "j" is untouched, with nothing spawned. -/
theorem C10_failed_trylock_frame_witness :
    (TryLock ⟨true, false⟩ contextBackground "k" ⟨[], [("j", 3)]⟩
        true "v" 0).state.listeners = [("j", 3)] ∧
    (TryLock ⟨true, false⟩ contextBackground "k" ⟨[], [("j", 3)]⟩
        true "v" 0).spawned = false :=
  C10_failed_trylock_frame ⟨true, false⟩ contextBackground "k" ⟨[], [("j", 3)]⟩
    true "v" 0 (by decide)

/-- C5: with a store configured, `Unlock` on a key with no record
returns false and leaves both the store and the renewal registry
unchanged; and in general `Unlock` returns true exactly when the delete
removed at least one key and no error occurred. -/
theorem C5_unlock_absent_and_result_iff (rd : RedisDriver) (ctx : Context)
    (key : String) (st : SysState) (fault : Bool)
    (hconf : rd.client = true ∨ rd.clusterClient = true) :
    (containsKey st.store key = false →
      (Unlock rd ctx key st fault).ok = false ∧
      (Unlock rd ctx key st fault).state = st) ∧
    ((Unlock rd ctx key st fault).ok = true ↔
      1 ≤ (del st.store key).1 ∧ fault = false) := by
  obtain ⟨c, cc⟩ := rd
  cases c <;> cases cc <;> cases fault <;>
    cases hk : containsKey st.store key <;>
    simp_all [Unlock, del, filter_ne_of_not_containsKey]

/-- Witness for C5: unlocking "k" when only "j" is locked returns false
and changes nothing. -/
theorem C5_unlock_absent_witness :
    (Unlock ⟨true, false⟩ contextBackground "k"
        ⟨[("j", "v")], [("j", 2)]⟩ false).ok = false ∧
    (Unlock ⟨true, false⟩ contextBackground "k"
        ⟨[("j", "v")], [("j", 2)]⟩ false).state = ⟨[("j", "v")], [("j", 2)]⟩ :=
  (C5_unlock_absent_and_result_iff ⟨true, false⟩ contextBackground "k"
    ⟨[("j", "v")], [("j", 2)]⟩ false (Or.inl rfl)).1 (by decide)

/-- C3: whenever a `TryLock` on a singly-configured driver succeeds,
releasing the key with `Unlock` returns true, and a further `TryLock` on
the released key succeeds again — a cleanly released key becomes
acquirable again. -/
theorem C3_round_trip (rd : RedisDriver) (ctx1 ctx2 ctx3 : Context) (key : String)
    (st : SysState) (val1 val2 : String) (ch1 ch2 : Nat)
    (hdrv : rd.client = true ∧ rd.clusterClient = false ∨
            rd.client = false ∧ rd.clusterClient = true)
    (h1 : (TryLock rd ctx1 key st false val1 ch1).ok = true) :
    (Unlock rd ctx2 key (TryLock rd ctx1 key st false val1 ch1).state false).ok = true ∧
    (TryLock rd ctx3 key
        (Unlock rd ctx2 key (TryLock rd ctx1 key st false val1 ch1).state false).state
        false val2 ch2).ok = true := by
  obtain ⟨c, cc⟩ := rd
  rcases hdrv with ⟨hc, hcc⟩ | ⟨hc, hcc⟩ <;> subst hc <;> subst hcc <;>
    cases hk : containsKey st.store key <;>
    simp_all [TryLock, Unlock, setNX, del, containsKey_cons_self, containsKey_filter_ne]

/-- Witness for C3: on an empty store, lock "k", unlock it, lock it
again; the unlock and the second lock both return true. -/
theorem C3_round_trip_witness :
    (Unlock ⟨true, false⟩ contextBackground "k"
        (TryLock ⟨true, false⟩ contextBackground "k" ⟨[], []⟩ false "a" 0).state
        false).ok = true ∧
    (TryLock ⟨true, false⟩ contextBackground "k"
        (Unlock ⟨true, false⟩ contextBackground "k"
          (TryLock ⟨true, false⟩ contextBackground "k" ⟨[], []⟩ false "a" 0).state
          false).state
        false "b" 1).ok = true :=
  C3_round_trip ⟨true, false⟩ contextBackground contextBackground contextBackground
    "k" ⟨[], []⟩ "a" "b" 0 1 (Or.inl ⟨rfl, rfl⟩) (by decide)

/-- C8: the holder-marker value never influences a later outcome.  For
two stores that agree on which keys exist but may hold different marker
values, `Unlock` returns the same boolean and a refresh returns the same
result; moreover with a store configured and no fault, `Unlock` returns
true whenever a record exists, whatever marker value it holds. -/
theorem C8_marker_value_irrelevant (rd : RedisDriver) (ctx : Context) (key : String)
    (s1 s2 : Store) (L : List (String × Nat)) (fault : Bool)
    (h : sameDomain s1 s2) :
    (Unlock rd ctx key ⟨s1, L⟩ fault).ok = (Unlock rd ctx key ⟨s2, L⟩ fault).ok ∧
    expire s1 key = expire s2 key ∧
    ((rd.client = true ∨ rd.clusterClient = true) → fault = false →
      containsKey s1 key = true →
      (Unlock rd ctx key ⟨s1, L⟩ fault).ok = true) := by
  have hkey := h key
  obtain ⟨c, cc⟩ := rd
  cases c <;> cases cc <;> cases fault <;>
    cases hk : containsKey s1 key <;>
    simp_all [Unlock, del, expire]

/-- Witness for C8: two stores holding "k" with different marker values
give the same `Unlock` result. -/
theorem C8_marker_value_irrelevant_witness :
    (Unlock ⟨true, false⟩ contextBackground "k" ⟨[("k", "a")], []⟩ false).ok =
      (Unlock ⟨true, false⟩ contextBackground "k" ⟨[("k", "b")], []⟩ false).ok :=
  (C8_marker_value_irrelevant ⟨true, false⟩ contextBackground "k"
    [("k", "a")] [("k", "b")] [] false (fun _ => rfl)).1

/-- C7 amended: the store calls issued by `TryLock` and `Unlock` run
under the caller's context when it has a deadline, else under a derived
context bounded by the 3-second `redisExecuteTimeout`; the refresh calls
issued by the renewal loop, however, run under the background context,
which has no deadline. -/
theorem C7_amended_bounded_except_renewal (rd : RedisDriver) (ctx : Context)
    (key : String) (st : SysState) (fault : Bool) (val : String) (chanId : Nat)
    (evs : List RenewalEvent) :
    (∀ c ∈ (TryLock rd ctx key st fault val chanId).calls,
      StoreCall.ctx c = withExecuteTimeout ctx) ∧
    (∀ c ∈ (Unlock rd ctx key st fault).calls,
      StoreCall.ctx c = withExecuteTimeout ctx) ∧
    (∀ c ∈ renewalRun key evs, StoreCall.ctx c = contextBackground) ∧
    (withExecuteTimeout ctx).deadline =
      (if ctx.deadline.isSome then ctx.deadline else some redisExecuteTimeout) := by
  refine ⟨?_, ?_, renewalRun_ctx key evs, ?_⟩
  · obtain ⟨c, cc⟩ := rd
    cases c <;> cases cc <;> cases fault <;>
      cases hk : containsKey st.store key <;>
      simp_all [TryLock, setNX, StoreCall.ctx, containsKey_cons_self]
  · obtain ⟨c, cc⟩ := rd
    cases c <;> cases cc <;> cases fault <;>
      simp_all [Unlock, StoreCall.ctx]
  · cases hd : ctx.deadline <;> simp [withExecuteTimeout, hd]

/-- Witness for C7 amended: the `SetNX` call of a concrete `TryLock`
under a deadline-free caller context carries the 3-second default. -/
theorem C7_amended_bounded_except_renewal_witness :
    StoreCall.ctx (StoreCall.setNXCall ⟨some redisExecuteTimeout⟩ "k" "v" lockTTL) =
      withExecuteTimeout contextBackground :=
  (C7_amended_bounded_except_renewal ⟨true, false⟩ contextBackground "k" ⟨[], []⟩
    false "v" 0 []).1
    (StoreCall.setNXCall ⟨some redisExecuteTimeout⟩ "k" "v" lockTTL) (by decide)

end Corgi
